import Mathlib

/-!
# app-xrp, `src/main.c`: command dispatcher, transport multiplexer, entry points

A shallow embedding of `main.c`.  The C globals the file touches are gathered in `Mem`;
every call that leaves `main.c` is recorded in a trace of `Event`s, and the functions
whose bodies live in other files or in the SDK (`io_exchange`, `handleApdu`, the swap
handlers, the SPI primitives) are fields of `Env`, so every theorem holds for all of
their behaviours.  Faults (`THROW`) are values returned next to the state.  The two
`for (;;)` loops take a bound on the number of iterations.

Machine integers are natural numbers reduced explicitly: `unsigned char` modulo `2^8`,
`unsigned short` modulo `2^16`, `unsigned int` modulo `2^32`.  `G_io_apdu_buffer` is a
total map from offsets to bytes, so a statement made for every offset holds for every
size the SDK gives the array.
-/

namespace AppXrp

/-! ## Constants and build switches taken from headers outside `main.c` -/

/-- Constants of the SDK and application headers that `main.c` names but does not define,
together with the two preprocessor switches it tests. -/
structure Sdk where
  CHANNEL_APDU : Nat
  CHANNEL_KEYBOARD : Nat
  CHANNEL_SPI : Nat
  IO_FLAGS : Nat
  IO_RESET_AFTER_REPLIED : Nat
  IO_APDU_BUFFER_SIZE : Nat
  INVALID_PARAMETER : Nat
  EXCEPTION_IO_RESET : Nat
  CX_COMPAT_APILEVEL : Nat
  CHECK_ADDRESS : Nat
  SIGN_TRANSACTION : Nat
  GET_PRINTABLE_AMOUNT : Nat
  OS_SETTING_PLANEMODE : Nat
  TARGET_NANOX : Bool
  HAVE_BLE : Bool

/-! ## State -/

/-- Calls that leave `main.c`, in the order they are made. -/
inductive Event where
  | io_exchange (channel tx_len : Nat)
  | handleApdu
  | resetTransactionContext
  | io_seproxyhal_spi_send (bytes : List Nat)
  | reset
  | io_seproxyhal_spi_recv (maxlen flags : Nat)
  | UX_INIT
  | io_seproxyhal_init
  | os_setting_get (id : Nat)
  | USB_power (level : Nat)
  | displayIdleMenu
  | BLE_power (level : Nat)
  | os_sched_exit (status : Nat)
  | os_boot
  | check_api_level (level : Nat)
  | handle_check_address (params : Nat)
  | handle_swap_sign_transaction (params : Nat)
  | handle_get_printable_amount (params : Nat)
  | os_lib_end
  deriving DecidableEq, Repr

/-- Globals read or written by `main.c`: the APDU buffer, the Transaction Context (type `C`),
`called_from_swap`, and everything else the external functions keep (type `E`). -/
structure Mem (C E : Type) where
  G_io_apdu_buffer : Nat → Nat
  ctx : C
  called_from_swap : Bool
  ext : E

/-- Memory together with the trace of external calls made so far. -/
structure State (C E : Type) where
  mem : Mem C E
  trace : List Event

/-- What `handleApdu(&flags, &tx)` leaves behind: the two locals it writes through its
pointers, the memory, and the fault it raised, if any. -/
structure HandlerOut (C E : Type) where
  flags : Nat
  tx : Nat
  mem : Mem C E
  thrown : Option Nat

/-- Behaviour of the functions `main.c` calls but does not define.  A result
`Except.error e` or `some e` is a `THROW(e)` escaping the call. -/
structure Env (C E : Type) where
  ctx_initial : C
  io_exchange : Nat → Nat → Mem C E → Mem C E × Except Nat Nat
  handleApdu : Nat → Nat → Mem C E → HandlerOut C E
  io_seproxyhal_spi_recv : Nat → Nat → Mem C E → Mem C E × Nat
  check_api_level : Nat → Mem C E → Mem C E × Option Nat
  handle_check_address : Nat → Mem C E → Mem C E × Option Nat
  handle_swap_sign_transaction : Nat → Mem C E → Mem C E × Option Nat
  handle_get_printable_amount : Nat → Mem C E → Mem C E × Option Nat

/-- The locals `rx`, `tx`, `flags` of `app_main`. -/
structure Locals where
  rx : Nat
  tx : Nat
  flags : Nat
  deriving DecidableEq, Repr

variable {C E : Type}

/-- Append one external call to the trace. -/
def State.log (s : State C E) (ev : Event) : State C E :=
  { s with trace := s.trace ++ [ev] }

/-- Store one byte: `buf[k] = v`. -/
def setByte (buf : Nat → Nat) (k v : Nat) : Nat → Nat :=
  fun i => if i = k then v else buf i

/-- Bitwise complement of a 32-bit `int`: `~x`. -/
def bnot32 (x : Nat) : Nat :=
  (2 ^ 32 - 1) ^^^ (x % 2 ^ 32)

/-- Modelled from the spec: `resetTransactionContext` is declared in `apdu/global.h` and its
body is not in `main.c`; per the spec it puts the Transaction Context back to its initial
value ("fully reset", "all fields at initial values") and touches nothing else. -/
def resetTransactionContext (env : Env C E) (s : State C E) : State C E :=
  { mem := { s.mem with ctx := env.ctx_initial },
    trace := s.trace ++ [Event.resetTransactionContext] }

/-! ## `io_exchange_al` (lines 36-59) -/

/-- The scrutinee of the switch in `io_exchange_al`: `channel & ~(IO_FLAGS)`. -/
def medium (sdk : Sdk) (channel : Nat) : Nat :=
  channel &&& bnot32 sdk.IO_FLAGS

/-- Lines 36-59.  `io_seproxyhal_spi_send` and `reset` are recorded in the trace; the send
event carries the `tx_len` bytes it is given.  `io_seproxyhal_spi_recv` fills the buffer as
the environment says and its result is returned as an `unsigned short`. -/
def io_exchange_al (sdk : Sdk) (env : Env C E) (channel tx_len : Nat) (s : State C E) :
    State C E × Except Nat Nat :=
  if medium sdk channel = sdk.CHANNEL_KEYBOARD then
    (s, Except.ok 0)
  else if medium sdk channel = sdk.CHANNEL_SPI then
    if tx_len ≠ 0 then
      let s1 := s.log (Event.io_seproxyhal_spi_send
        ((List.range tx_len).map s.mem.G_io_apdu_buffer))
      let s2 := if channel &&& sdk.IO_RESET_AFTER_REPLIED ≠ 0 then s1.log Event.reset else s1
      (s2, Except.ok 0)
    else
      let r := env.io_seproxyhal_spi_recv sdk.IO_APDU_BUFFER_SIZE 0 s.mem
      ({ mem := r.1,
         trace := s.trace ++ [Event.io_seproxyhal_spi_recv sdk.IO_APDU_BUFFER_SIZE 0] },
       Except.ok (r.2 % 2 ^ 16))
  else
    (s, Except.error sdk.INVALID_PARAMETER)

/-! ## `app_main` (lines 61-123) -/

/-- The switch of `CATCH_OTHER` (lines 97-112): the Status Word `sw` (an `unsigned short`)
and whether `resetTransactionContext` is called. -/
def classify (e : Nat) : Nat × Bool :=
  if e &&& 0xF000 = 0x6000 then (e % 2 ^ 16, true)
  else if e &&& 0xF000 = 0x9000 then (e % 2 ^ 16, false)
  else ((0x6800 ||| (e &&& 0x7FF)) % 2 ^ 16, true)

/-- State of one pass through the `TRY` block when control leaves it. -/
structure TryOut (C E : Type) where
  loc : Locals
  st : State C E
  thrown : Option Nat

/-- The `TRY` block of `app_main` (lines 77-91).  `io_exchange` takes an `unsigned char` and
an `unsigned short` and returns an `unsigned short`; `PRINTF` is a debug print and is left
out. -/
def app_main_try (sdk : Sdk) (env : Env C E) (l : Locals) (s : State C E) : TryOut C E :=
  let channel := (sdk.CHANNEL_APDU ||| l.flags) % 2 ^ 8
  let tx_len := l.tx % 2 ^ 16
  let x := env.io_exchange channel tx_len s.mem
  let tr := s.trace ++ [Event.io_exchange channel tx_len]
  match x.2 with
  | Except.error e =>
    { loc := { rx := l.tx, tx := 0, flags := l.flags },
      st := { mem := x.1, trace := tr }, thrown := some e }
  | Except.ok r =>
    if r % 2 ^ 16 = 0 then
      { loc := { rx := 0, tx := 0, flags := 0 },
        st := { mem := x.1, trace := tr }, thrown := some 0x6982 }
    else
      let h := env.handleApdu 0 0 x.1
      { loc := { rx := r % 2 ^ 16, tx := h.tx % 2 ^ 32, flags := h.flags % 2 ^ 32 },
        st := { mem := h.mem, trace := tr ++ [Event.handleApdu] }, thrown := h.thrown }

/-- The `CATCH_OTHER` block (lines 96-117). -/
def catch_other (env : Env C E) (e : Nat) (l : Locals) (s : State C E) :
    Locals × State C E :=
  let sw := (classify e).1
  let s1 := if (classify e).2 then resetTransactionContext env s else s
  let b1 := setByte s1.mem.G_io_apdu_buffer l.tx ((sw >>> 8) % 2 ^ 8)
  let b2 := setByte b1 ((l.tx + 1) % 2 ^ 32) (sw % 2 ^ 8)
  ({ l with tx := (l.tx + 2) % 2 ^ 32 },
   { s1 with mem := { s1.mem with G_io_apdu_buffer := b2 } })

/-- How one pass of the `for (;;)` of `app_main` ends: the loop goes on, or a fault leaves
`app_main`. -/
inductive CycleOut (C E : Type) where
  | next (l : Locals) (s : State C E)
  | throw (e : Nat) (s : State C E)

/-- One pass of the loop body (lines 73-121). -/
def app_main_cycle (sdk : Sdk) (env : Env C E) (l : Locals) (s : State C E) : CycleOut C E :=
  let t := app_main_try sdk env l s
  match t.thrown with
  | none => CycleOut.next t.loc t.st
  | some e =>
    if e = sdk.EXCEPTION_IO_RESET then CycleOut.throw sdk.EXCEPTION_IO_RESET t.st
    else CycleOut.next (catch_other env e t.loc t.st).1 (catch_other env e t.loc t.st).2

/-- How a bounded run of a loop ends. -/
inductive RunOut (C E : Type) where
  | threw (e : Nat) (s : State C E)
  | returned (s : State C E)
  | unfinished (s : State C E)

/-- State carried by a run result. -/
def RunOut.state : RunOut C E → State C E
  | RunOut.threw _ s => s
  | RunOut.returned s => s
  | RunOut.unfinished s => s

/-- The `for (;;)` of `app_main`, at most `fuel` passes. -/
def app_main_loop (sdk : Sdk) (env : Env C E) : Nat → Locals → State C E → RunOut C E
  | 0, _, s => RunOut.unfinished s
  | fuel + 1, l, s =>
    match app_main_cycle sdk env l s with
    | CycleOut.next l1 s1 => app_main_loop sdk env fuel l1 s1
    | CycleOut.throw e s1 => RunOut.threw e s1

/-- Lines 61-123: `rx`, `tx` and `flags` start at zero. -/
def app_main (sdk : Sdk) (env : Env C E) (fuel : Nat) (s : State C E) : RunOut C E :=
  app_main_loop sdk env fuel { rx := 0, tx := 0, flags := 0 } s

/-! ## `app_exit`, `coin_main`, `library_main`, `main` (lines 199-302) -/

/-- Lines 199-208. -/
def app_exit (s : State C E) : State C E :=
  s.log (Event.os_sched_exit 1)

/-- Lines 212-234 of `coin_main`: what one pass of its loop does before it calls
`app_main`.  The set-up calls are recorded in the trace and taken to return normally. -/
def coin_main_setup (sdk : Sdk) (env : Env C E) (s : State C E) : State C E :=
  let s0 : State C E := { s with mem := { s.mem with called_from_swap := false } }
  let s1 := resetTransactionContext env s0
  let s2 := (s1.log Event.UX_INIT).log Event.io_seproxyhal_init
  let s3 := if sdk.TARGET_NANOX then s2.log (Event.os_setting_get sdk.OS_SETTING_PLANEMODE)
    else s2
  let s4 := ((s3.log (Event.USB_power 0)).log (Event.USB_power 1)).log Event.displayIdleMenu
  if sdk.HAVE_BLE then (s4.log (Event.BLE_power 0)).log (Event.BLE_power 1) else s4

/-- Lines 210-253: at most `outer` passes of the supervisor loop, each running `app_main`
for at most `fuel` passes.  `CATCH(EXCEPTION_IO_RESET)` continues the loop, `CATCH_ALL`
breaks out of it to `app_exit`. -/
def coin_main (sdk : Sdk) (env : Env C E) (fuel : Nat) : Nat → State C E → RunOut C E
  | 0, s => RunOut.unfinished s
  | outer + 1, s =>
    match app_main sdk env fuel (coin_main_setup sdk env s) with
    | RunOut.threw e s1 =>
      if e = sdk.EXCEPTION_IO_RESET then coin_main sdk env fuel outer s1
      else RunOut.returned (app_exit s1)
    | RunOut.returned s1 => coin_main sdk env fuel outer s1
    | RunOut.unfinished s1 => RunOut.unfinished s1

/-- Run one delegated operation and record it. -/
def runOp (op : Nat → Mem C E → Mem C E × Option Nat) (ev : Event) (p : Nat)
    (s : State C E) : State C E × Option Nat :=
  ({ mem := (op p s.mem).1, trace := s.trace ++ [ev] }, (op p s.mem).2)

/-- The switch of `library_main` (lines 260-272); it has no default case. -/
def library_switch (sdk : Sdk) (env : Env C E) (command call_parameters : Nat)
    (s : State C E) : State C E × Option Nat :=
  if command = sdk.CHECK_ADDRESS then
    runOp env.handle_check_address (Event.handle_check_address call_parameters)
      call_parameters s
  else if command = sdk.SIGN_TRANSACTION then
    runOp env.handle_swap_sign_transaction
      (Event.handle_swap_sign_transaction call_parameters) call_parameters s
  else if command = sdk.GET_PRINTABLE_AMOUNT then
    runOp env.handle_get_printable_amount
      (Event.handle_get_printable_amount call_parameters) call_parameters s
  else (s, none)

/-- Lines 255-279.  The `TRY` has no `CATCH`, so a fault raised by `check_api_level` or by
the operation leaves `library_main`. -/
def library_main (sdk : Sdk) (env : Env C E) (command call_parameters : Nat)
    (s : State C E) : RunOut C E :=
  let a := runOp env.check_api_level (Event.check_api_level sdk.CX_COMPAT_APILEVEL)
    sdk.CX_COMPAT_APILEVEL s
  match a.2 with
  | some e => RunOut.threw e a.1
  | none =>
    let b := library_switch sdk env command call_parameters a.1
    match b.2 with
    | some e => RunOut.threw e b.1
    | none => RunOut.returned (b.1.log Event.os_lib_end)

/-- Lines 281-302.  `arg0` is the argument and `words i` is `((unsigned int *) arg0)[i]`. -/
def main (sdk : Sdk) (env : Env C E) (fuel outer : Nat) (arg0 : Nat) (words : Nat → Nat)
    (s : State C E) : RunOut C E :=
  let s1 := s.log Event.os_boot
  if arg0 = 0 then
    coin_main sdk env fuel outer s1
  else if words 0 ≠ 0x100 then
    RunOut.returned (app_exit s1)
  else
    library_main sdk env (words 1) (words 3) s1

/-! ## Observations on traces -/

/-- State carried by the outcome of a cycle. -/
def CycleOut.state : CycleOut C E → State C E
  | CycleOut.next _ s => s
  | CycleOut.throw _ s => s

/-- Whether an event is one of the three delegated operations. -/
def isDelegatedOp : Event → Bool
  | Event.handle_check_address _ => true
  | Event.handle_swap_sign_transaction _ => true
  | Event.handle_get_printable_amount _ => true
  | _ => false

/-- Number of delegated operations run in a trace. -/
def opsRun (tr : List Event) : Nat :=
  tr.countP isDelegatedOp

/-- Number of return-to-caller signals in a trace. -/
def libEnds (tr : List Event) : Nat :=
  tr.count Event.os_lib_end

/-- The calls one pass of `coin_main` makes before `app_main` (lines 213-234). -/
def setupEvents (sdk : Sdk) : List Event :=
  [Event.resetTransactionContext, Event.UX_INIT, Event.io_seproxyhal_init]
    ++ (if sdk.TARGET_NANOX then [Event.os_setting_get sdk.OS_SETTING_PLANEMODE] else [])
    ++ [Event.USB_power 0, Event.USB_power 1, Event.displayIdleMenu]
    ++ (if sdk.HAVE_BLE then [Event.BLE_power 0, Event.BLE_power 1] else [])

/-- The call the switch of `library_main` (lines 260-272) makes for selector `c`: a list of at
most one event. -/
def selectedOps (sdk : Sdk) (c p : Nat) : List Event :=
  if c = sdk.CHECK_ADDRESS then [Event.handle_check_address p]
  else if c = sdk.SIGN_TRANSACTION then [Event.handle_swap_sign_transaction p]
  else if c = sdk.GET_PRINTABLE_AMOUNT then [Event.handle_get_printable_amount p]
  else []

/-! ## Concrete instances -/

/-- Values the Nano S SDK headers give the constants; used for concrete instances only. -/
def sdkNano : Sdk where
  CHANNEL_APDU := 0
  CHANNEL_KEYBOARD := 1
  CHANNEL_SPI := 2
  IO_FLAGS := 0xF0
  IO_RESET_AFTER_REPLIED := 0x80
  IO_APDU_BUFFER_SIZE := 260
  INVALID_PARAMETER := 2
  EXCEPTION_IO_RESET := 16
  CX_COMPAT_APILEVEL := 9
  CHECK_ADDRESS := 3
  SIGN_TRANSACTION := 2
  GET_PRINTABLE_AMOUNT := 4
  OS_SETTING_PLANEMODE := 5
  TARGET_NANOX := false
  HAVE_BLE := false

/-- Memory with an all-zero buffer and Transaction Context `c`. -/
def demoMem (c : Nat) : Mem Nat Unit where
  G_io_apdu_buffer := fun _ => 0
  ctx := c
  called_from_swap := false
  ext := ()

/-- State with memory `demoMem c` and an empty trace. -/
def demoState (c : Nat) : State Nat Unit where
  mem := demoMem c
  trace := []

/-- An environment whose `io_exchange` answers `x`, and whose handler writes `n` reply bytes
`0xA0, 0xA1, ...`, sets the Transaction Context to `7`, and ends as `t` says (`none`: returns
normally, `some e`: `THROW(e)`).  The initial Transaction Context is `0`. -/
def demoEnv (x : Except Nat Nat) (n : Nat) (t : Option Nat) : Env Nat Unit where
  ctx_initial := 0
  io_exchange := fun _ _ m => (m, x)
  handleApdu := fun fl _ m =>
    { flags := fl, tx := n,
      mem := { m with G_io_apdu_buffer := fun i => if i < n then 0xA0 + i else
        m.G_io_apdu_buffer i, ctx := 7 },
      thrown := t }
  io_seproxyhal_spi_recv := fun _ _ m => (m, 5)
  check_api_level := fun _ m => (m, none)
  handle_check_address := fun _ m => (m, none)
  handle_swap_sign_transaction := fun _ m => (m, none)
  handle_get_printable_amount := fun _ m => (m, none)

/-! ## Auxiliary facts -/

theorem classify_fst_lt (e : Nat) : (classify e).1 < 2 ^ 16 := by
  unfold classify
  split
  · exact Nat.mod_lt _ (by norm_num)
  · split
    · exact Nat.mod_lt _ (by norm_num)
    · exact Nat.mod_lt _ (by norm_num)

theorem masked_lt (e : Nat) : 0x6800 ||| (e &&& 0x7FF) < 2 ^ 16 := by
  apply Nat.or_lt_two_pow
  · norm_num
  · exact lt_of_le_of_lt Nat.and_le_right (by norm_num)

theorem classify_fst_eq (e : Nat) (he : e < 2 ^ 16) :
    (classify e).1 =
      if e &&& 0xF000 = 0x6000 ∨ e &&& 0xF000 = 0x9000 then e
      else 0x6800 ||| (e &&& 0x7FF) := by
  unfold classify
  by_cases h6 : e &&& 0xF000 = 0x6000
  · simp only [h6, if_true, true_or]
    exact Nat.mod_eq_of_lt he
  · by_cases h9 : e &&& 0xF000 = 0x9000
    · simp only [h6, h9, if_false, if_true, or_true]
      exact Nat.mod_eq_of_lt he
    · simp only [h6, h9, if_false, or_self]
      exact Nat.mod_eq_of_lt (masked_lt e)

theorem classify_snd_eq (e : Nat) : (classify e).2 = decide (e &&& 0xF000 ≠ 0x9000) := by
  unfold classify
  by_cases h6 : e &&& 0xF000 = 0x6000
  · simp [h6]
  · by_cases h9 : e &&& 0xF000 = 0x9000
    · simp [h9]
    · simp [h6, h9]

theorem cycle_of_none (sdk : Sdk) (env : Env C E) (l : Locals) (s : State C E)
    (h : (app_main_try sdk env l s).thrown = none) :
    app_main_cycle sdk env l s =
      CycleOut.next (app_main_try sdk env l s).loc (app_main_try sdk env l s).st := by
  unfold app_main_cycle
  simp only [h]

theorem cycle_of_reset (sdk : Sdk) (env : Env C E) (l : Locals) (s : State C E)
    (h : (app_main_try sdk env l s).thrown = some sdk.EXCEPTION_IO_RESET) :
    app_main_cycle sdk env l s =
      CycleOut.throw sdk.EXCEPTION_IO_RESET (app_main_try sdk env l s).st := by
  unfold app_main_cycle
  simp only [h, if_true]

theorem cycle_of_fault (sdk : Sdk) (env : Env C E) (l : Locals) (s : State C E) (e : Nat)
    (h : (app_main_try sdk env l s).thrown = some e) (hne : e ≠ sdk.EXCEPTION_IO_RESET) :
    app_main_cycle sdk env l s =
      CycleOut.next
        (catch_other env e (app_main_try sdk env l s).loc (app_main_try sdk env l s).st).1
        (catch_other env e (app_main_try sdk env l s).loc (app_main_try sdk env l s).st).2 := by
  unfold app_main_cycle
  simp only [h, hne, if_false]

theorem try_of_handler (sdk : Sdk) (env : Env C E) (l : Locals) (s : State C E)
    (m1 : Mem C E) (r : Nat)
    (hx : env.io_exchange ((sdk.CHANNEL_APDU ||| l.flags) % 2 ^ 8) (l.tx % 2 ^ 16) s.mem
      = (m1, Except.ok r))
    (hr : r % 2 ^ 16 ≠ 0) :
    app_main_try sdk env l s =
      { loc := { rx := r % 2 ^ 16, tx := (env.handleApdu 0 0 m1).tx % 2 ^ 32,
                 flags := (env.handleApdu 0 0 m1).flags % 2 ^ 32 },
        st := { mem := (env.handleApdu 0 0 m1).mem,
                trace := s.trace ++ [Event.io_exchange
                  ((sdk.CHANNEL_APDU ||| l.flags) % 2 ^ 8) (l.tx % 2 ^ 16)]
                  ++ [Event.handleApdu] },
        thrown := (env.handleApdu 0 0 m1).thrown } := by
  unfold app_main_try
  simp only [hx, hr, if_false]

theorem try_of_no_command (sdk : Sdk) (env : Env C E) (l : Locals) (s : State C E)
    (m1 : Mem C E) (r : Nat)
    (hx : env.io_exchange ((sdk.CHANNEL_APDU ||| l.flags) % 2 ^ 8) (l.tx % 2 ^ 16) s.mem
      = (m1, Except.ok r))
    (hr : r % 2 ^ 16 = 0) :
    app_main_try sdk env l s =
      { loc := { rx := 0, tx := 0, flags := 0 },
        st := { mem := m1,
                trace := s.trace ++ [Event.io_exchange
                  ((sdk.CHANNEL_APDU ||| l.flags) % 2 ^ 8) (l.tx % 2 ^ 16)] },
        thrown := some 0x6982 } := by
  unfold app_main_try
  simp only [hx, hr, if_true]

theorem try_of_exchange_fault (sdk : Sdk) (env : Env C E) (l : Locals) (s : State C E)
    (m1 : Mem C E) (e : Nat)
    (hx : env.io_exchange ((sdk.CHANNEL_APDU ||| l.flags) % 2 ^ 8) (l.tx % 2 ^ 16) s.mem
      = (m1, Except.error e)) :
    app_main_try sdk env l s =
      { loc := { rx := l.tx, tx := 0, flags := l.flags },
        st := { mem := m1,
                trace := s.trace ++ [Event.io_exchange
                  ((sdk.CHANNEL_APDU ||| l.flags) % 2 ^ 8) (l.tx % 2 ^ 16)] },
        thrown := some e } := by
  unfold app_main_try
  simp only [hx]

theorem catch_other_tx (env : Env C E) (e : Nat) (l : Locals) (s : State C E) :
    (catch_other env e l s).1.tx = (l.tx + 2) % 2 ^ 32 := rfl

theorem catch_other_buffer (env : Env C E) (e : Nat) (l : Locals) (s : State C E) :
    (catch_other env e l s).2.mem.G_io_apdu_buffer =
      setByte (setByte s.mem.G_io_apdu_buffer l.tx (((classify e).1 >>> 8) % 2 ^ 8))
        ((l.tx + 1) % 2 ^ 32) ((classify e).1 % 2 ^ 8) := by
  unfold catch_other resetTransactionContext
  dsimp only
  split <;> rfl

theorem catch_other_ctx (env : Env C E) (e : Nat) (l : Locals) (s : State C E) :
    (catch_other env e l s).2.mem.ctx =
      if (classify e).2 then env.ctx_initial else s.mem.ctx := by
  unfold catch_other resetTransactionContext
  dsimp only
  split <;> rfl

theorem catch_other_trace (env : Env C E) (e : Nat) (l : Locals) (s : State C E) :
    (catch_other env e l s).2.trace =
      if (classify e).2 then s.trace ++ [Event.resetTransactionContext] else s.trace := by
  unfold catch_other resetTransactionContext
  dsimp only
  split <;> rfl

theorem hi_byte (sw : Nat) (h : sw < 2 ^ 16) : (sw >>> 8) % 2 ^ 8 = sw >>> 8 := by
  apply Nat.mod_eq_of_lt
  rw [Nat.shiftRight_eq_div_pow]
  omega

theorem bytes_join (sw : Nat) (h : sw < 2 ^ 16) :
    (sw >>> 8) % 2 ^ 8 * 256 + sw % 2 ^ 8 = sw := by
  rw [hi_byte sw h, Nat.shiftRight_eq_div_pow]
  omega

theorem setByte_same (buf : Nat → Nat) (k v : Nat) : setByte buf k v k = v := by
  simp [setByte]

theorem setByte_other (buf : Nat → Nat) (k v i : Nat) (h : i ≠ k) :
    setByte buf k v i = buf i := by
  simp [setByte, h]

theorem succ_wrap_ne (n : Nat) : n ≠ (n + 1) % 2 ^ 32 := by
  omega

theorem catch_other_readback (env : Env C E) (e : Nat) (l : Locals) (s : State C E) :
    (catch_other env e l s).2.mem.G_io_apdu_buffer l.tx * 256
      + (catch_other env e l s).2.mem.G_io_apdu_buffer ((l.tx + 1) % 2 ^ 32)
      = (classify e).1 := by
  rw [catch_other_buffer, setByte_same, setByte_other _ _ _ _ (succ_wrap_ne l.tx),
    setByte_same]
  exact bytes_join _ (classify_fst_lt e)

theorem try_trace_head (sdk : Sdk) (env : Env C E) (l : Locals) (s : State C E) :
    ∃ rest, (app_main_try sdk env l s).st.trace =
      s.trace ++ Event.io_exchange ((sdk.CHANNEL_APDU ||| l.flags) % 2 ^ 8) (l.tx % 2 ^ 16)
        :: rest := by
  unfold app_main_try
  dsimp only
  split
  · exact ⟨[], rfl⟩
  · split
    · exact ⟨[], rfl⟩
    · exact ⟨[Event.handleApdu], by simp⟩

/-! ## The dispatcher: Status Word, reply layout, Transaction Context -/

/-- C1: for every 16-bit fault code `e` other than the transport-reset fault that leaves the
`TRY` block of a cycle of `app_main`, `CATCH_OTHER` computes `sw = e` when `e & 0xF000` is
`0x6000` or `0x9000` and `sw = 0x6800 | (e & 0x7FF)` otherwise, and that is the word the
cycle stores big-endian at the pending offset of the reply buffer. -/
theorem status_word_of_fault (sdk : Sdk) (env : Env C E) (l : Locals) (s : State C E)
    (e : Nat) (he : e < 2 ^ 16) (hne : e ≠ sdk.EXCEPTION_IO_RESET)
    (hthrown : (app_main_try sdk env l s).thrown = some e) :
    (classify e).1 =
        (if e &&& 0xF000 = 0x6000 ∨ e &&& 0xF000 = 0x9000 then e
         else 0x6800 ||| (e &&& 0x7FF)) ∧
      ∃ l1 s1, app_main_cycle sdk env l s = CycleOut.next l1 s1 ∧
        s1.mem.G_io_apdu_buffer (app_main_try sdk env l s).loc.tx * 256
          + s1.mem.G_io_apdu_buffer (((app_main_try sdk env l s).loc.tx + 1) % 2 ^ 32)
          = (if e &&& 0xF000 = 0x6000 ∨ e &&& 0xF000 = 0x9000 then e
             else 0x6800 ||| (e &&& 0x7FF)) := by
  refine ⟨classify_fst_eq e he, _, _, cycle_of_fault sdk env l s e hthrown hne, ?_⟩
  rw [catch_other_readback env e _ _]
  exact classify_fst_eq e he

/-- C1 at `e = 0x6A80`, raised by the handler after three reply bytes: the word is
`0x6A80`. -/
theorem status_word_of_fault_witness :
    0x6A80 < 2 ^ 16 ∧ 0x6A80 ≠ sdkNano.EXCEPTION_IO_RESET ∧
      (app_main_try sdkNano (demoEnv (Except.ok 5) 3 (some 0x6A80))
        { rx := 0, tx := 0, flags := 0 } (demoState 7)).thrown = some 0x6A80 ∧
      (classify 0x6A80).1 = 0x6A80 :=
  ⟨by decide, by decide, rfl,
    (status_word_of_fault sdkNano (demoEnv (Except.ok 5) 3 (some 0x6A80))
      { rx := 0, tx := 0, flags := 0 } (demoState 7) 0x6A80 (by decide) (by decide) rfl).1.trans
      (by decide)⟩

/-- C4: in a cycle of `app_main` where the handler raises a fault `e` (not the transport
reset) after setting the pending reply length to `n`, bytes `0..n-1` of the reply buffer stay
as the handler wrote them, byte `n` is `sw >> 8`, byte `n+1` is `sw & 0xFF`, and the pending
length becomes `n + 2`.  `n + 2 < 2^32` keeps `tx + 2` from wrapping in `unsigned int`. -/
theorem fault_reply_layout (sdk : Sdk) (env : Env C E) (l : Locals) (s : State C E)
    (m1 : Mem C E) (r e n : Nat)
    (hx : env.io_exchange ((sdk.CHANNEL_APDU ||| l.flags) % 2 ^ 8) (l.tx % 2 ^ 16) s.mem
      = (m1, Except.ok r))
    (hr : r % 2 ^ 16 ≠ 0)
    (hthrown : (env.handleApdu 0 0 m1).thrown = some e)
    (htx : (env.handleApdu 0 0 m1).tx = n)
    (hne : e ≠ sdk.EXCEPTION_IO_RESET)
    (hn : n + 2 < 2 ^ 32) :
    ∃ l1 s1, app_main_cycle sdk env l s = CycleOut.next l1 s1 ∧
      l1.tx = n + 2 ∧
      (∀ i, i < n →
        s1.mem.G_io_apdu_buffer i = (env.handleApdu 0 0 m1).mem.G_io_apdu_buffer i) ∧
      s1.mem.G_io_apdu_buffer n = (classify e).1 >>> 8 ∧
      s1.mem.G_io_apdu_buffer (n + 1) = (classify e).1 &&& 0xFF := by
  have ht := try_of_handler sdk env l s m1 r hx hr
  have hth : (app_main_try sdk env l s).thrown = some e := by rw [ht]; exact hthrown
  have hloc : (app_main_try sdk env l s).loc.tx = n := by
    rw [ht]
    show (env.handleApdu 0 0 m1).tx % 2 ^ 32 = n
    rw [htx]
    exact Nat.mod_eq_of_lt (by omega)
  have hmem : (app_main_try sdk env l s).st.mem = (env.handleApdu 0 0 m1).mem := by rw [ht]
  have h1 : (n + 1) % 2 ^ 32 = n + 1 := Nat.mod_eq_of_lt (by omega)
  refine ⟨_, _, cycle_of_fault sdk env l s e hth hne, ?_, ?_, ?_, ?_⟩
  · rw [catch_other_tx, hloc]
    exact Nat.mod_eq_of_lt hn
  · intro i hi
    rw [catch_other_buffer, hloc, h1, setByte_other _ _ _ _ (by omega),
      setByte_other _ _ _ _ (by omega), hmem]
  · rw [catch_other_buffer, hloc, h1, setByte_other _ _ _ _ (by omega), setByte_same]
    exact hi_byte _ (classify_fst_lt e)
  · rw [catch_other_buffer, hloc, h1, setByte_same]
    exact (Nat.and_pow_two_sub_one_eq_mod _ 8).symm

/-- C4 at fault `0x0005` raised after three reply bytes: the cycle appends `0x68 0x05`. -/
theorem fault_reply_layout_witness :
    (demoEnv (Except.ok 5) 3 (some 0x0005)).io_exchange
        ((sdkNano.CHANNEL_APDU ||| 0) % 2 ^ 8) (0 % 2 ^ 16) (demoState 7).mem
        = (demoMem 7, Except.ok 5) ∧
      5 % 2 ^ 16 ≠ 0 ∧
      ((demoEnv (Except.ok 5) 3 (some 0x0005)).handleApdu 0 0 (demoMem 7)).thrown
        = some 0x0005 ∧
      ((demoEnv (Except.ok 5) 3 (some 0x0005)).handleApdu 0 0 (demoMem 7)).tx = 3 ∧
      0x0005 ≠ sdkNano.EXCEPTION_IO_RESET ∧ 3 + 2 < 2 ^ 32 ∧
      (classify 0x0005).1 >>> 8 = 0x68 ∧ (classify 0x0005).1 &&& 0xFF = 0x05 ∧
      ∃ l1 s1, app_main_cycle sdkNano (demoEnv (Except.ok 5) 3 (some 0x0005))
          { rx := 0, tx := 0, flags := 0 } (demoState 7) = CycleOut.next l1 s1 ∧
        l1.tx = 3 + 2 ∧
        (∀ i, i < 3 → s1.mem.G_io_apdu_buffer i =
          ((demoEnv (Except.ok 5) 3 (some 0x0005)).handleApdu 0 0
            (demoMem 7)).mem.G_io_apdu_buffer i) ∧
        s1.mem.G_io_apdu_buffer 3 = (classify 0x0005).1 >>> 8 ∧
        s1.mem.G_io_apdu_buffer (3 + 1) = (classify 0x0005).1 &&& 0xFF :=
  ⟨rfl, by decide, rfl, rfl, by decide, by decide, by decide, by decide,
    fault_reply_layout sdkNano (demoEnv (Except.ok 5) 3 (some 0x0005))
      { rx := 0, tx := 0, flags := 0 } (demoState 7) (demoMem 7) 5 0x0005 3
      rfl (by decide) rfl rfl (by decide) (by decide)⟩

/-- C5: in a cycle of `app_main` where `io_exchange` returns 0, the handler is not invoked
(the trace holds the exchange and the context reset only), the fault `0x6982` leaves the
`TRY` block and is classified on the `0x6000` path, the Transaction Context is reset, and the
pending reply is the two bytes `0x69 0x82` at offset 0 with pending length 2.  The
transport-reset code is a constant of the SDK, different from `0x6982`. -/
theorem no_command_reply (sdk : Sdk) (env : Env C E) (l : Locals) (s : State C E)
    (m1 : Mem C E)
    (hx : env.io_exchange ((sdk.CHANNEL_APDU ||| l.flags) % 2 ^ 8) (l.tx % 2 ^ 16) s.mem
      = (m1, Except.ok 0))
    (hreset : sdk.EXCEPTION_IO_RESET ≠ 0x6982) :
    (app_main_try sdk env l s).thrown = some 0x6982 ∧
      0x6982 &&& 0xF000 = 0x6000 ∧ classify 0x6982 = (0x6982, true) ∧
      ∃ s1, app_main_cycle sdk env l s = CycleOut.next { rx := 0, tx := 2, flags := 0 } s1 ∧
        s1.trace = s.trace ++
          [Event.io_exchange ((sdk.CHANNEL_APDU ||| l.flags) % 2 ^ 8) (l.tx % 2 ^ 16),
           Event.resetTransactionContext] ∧
        s1.mem.ctx = env.ctx_initial ∧
        s1.mem.G_io_apdu_buffer 0 = 0x69 ∧ s1.mem.G_io_apdu_buffer 1 = 0x82 ∧
        ∀ i, 2 ≤ i → s1.mem.G_io_apdu_buffer i = m1.G_io_apdu_buffer i := by
  have ht := try_of_no_command sdk env l s m1 0 hx (by decide)
  have hth : (app_main_try sdk env l s).thrown = some 0x6982 := by rw [ht]
  have hc : classify 0x6982 = (0x6982, true) := by decide
  refine ⟨hth, by decide, hc,
    (catch_other env 0x6982 (app_main_try sdk env l s).loc (app_main_try sdk env l s).st).2,
    ?_, ?_, ?_, ?_, ?_, ?_⟩
  · rw [cycle_of_fault sdk env l s 0x6982 hth (fun h => hreset h.symm), ht]
    rfl
  · rw [catch_other_trace, hc, ht]
    simp
  · rw [catch_other_ctx, hc]
    rfl
  · rw [catch_other_buffer, hc, ht]
    rfl
  · rw [catch_other_buffer, hc, ht]
    rfl
  · intro i hi
    rw [catch_other_buffer, hc, ht]
    show setByte (setByte m1.G_io_apdu_buffer 0 _) ((0 + 1) % 2 ^ 32) _ i = _
    rw [setByte_other _ _ _ _ (by omega), setByte_other _ _ _ _ (by omega)]

/-- C5 with an exchange that returns 0 on an idle session: the reply is `0x69 0x82`. -/
theorem no_command_reply_witness :
    (demoEnv (Except.ok 0) 3 none).io_exchange
        ((sdkNano.CHANNEL_APDU ||| 0) % 2 ^ 8) (0 % 2 ^ 16) (demoState 7).mem
        = (demoMem 7, Except.ok 0) ∧
      sdkNano.EXCEPTION_IO_RESET ≠ 0x6982 ∧
      (app_main_try sdkNano (demoEnv (Except.ok 0) 3 none)
        { rx := 0, tx := 0, flags := 0 } (demoState 7)).thrown = some 0x6982 :=
  ⟨rfl, by decide,
    (no_command_reply sdkNano (demoEnv (Except.ok 0) 3 none)
      { rx := 0, tx := 0, flags := 0 } (demoState 7) (demoMem 7) rfl (by decide)).1⟩

/-- C3: for a fault `e` classified by `CATCH_OTHER` in a cycle of `app_main`: when
`e & 0xF000 = 0x9000` the Transaction Context after the cycle is the one the `TRY` block
left (the handler's, when the handler ran) and `resetTransactionContext` is not called; for
every other `e` it is called in that cycle, so the context is at its initial value in the
state the next pass of the loop starts from, and the handler of that pass runs on the memory
the exchange hands over from it. -/
theorem context_after_fault (sdk : Sdk) (env : Env C E) (l : Locals) (s : State C E)
    (e : Nat) (hthrown : (app_main_try sdk env l s).thrown = some e)
    (hne : e ≠ sdk.EXCEPTION_IO_RESET) :
    ∃ l1 s1, app_main_cycle sdk env l s = CycleOut.next l1 s1 ∧
      (∀ k, app_main_loop sdk env (k + 1) l s = app_main_loop sdk env k l1 s1) ∧
      (e &&& 0xF000 = 0x9000 →
        s1.mem.ctx = (app_main_try sdk env l s).st.mem.ctx ∧
        s1.trace = (app_main_try sdk env l s).st.trace) ∧
      (e &&& 0xF000 ≠ 0x9000 →
        s1.mem.ctx = env.ctx_initial ∧
        s1.trace = (app_main_try sdk env l s).st.trace ++ [Event.resetTransactionContext] ∧
        ∀ m2 r2,
          env.io_exchange ((sdk.CHANNEL_APDU ||| l1.flags) % 2 ^ 8) (l1.tx % 2 ^ 16) s1.mem
            = (m2, Except.ok r2) →
          r2 % 2 ^ 16 ≠ 0 → m2.ctx = s1.mem.ctx →
          m2.ctx = env.ctx_initial ∧
          (app_main_try sdk env l1 s1).st.mem = (env.handleApdu 0 0 m2).mem) ∧
      (∀ m1 r,
        env.io_exchange ((sdk.CHANNEL_APDU ||| l.flags) % 2 ^ 8) (l.tx % 2 ^ 16) s.mem
          = (m1, Except.ok r) →
        r % 2 ^ 16 ≠ 0 →
        (app_main_try sdk env l s).st.mem = (env.handleApdu 0 0 m1).mem) := by
  have hc := cycle_of_fault sdk env l s e hthrown hne
  refine ⟨_, _, hc, ?_, ?_, ?_, ?_⟩
  · intro k
    show (match app_main_cycle sdk env l s with
      | CycleOut.next l1 s1 => app_main_loop sdk env k l1 s1
      | CycleOut.throw e s1 => RunOut.threw e s1) = _
    rw [hc]
  · intro h9
    have h2 : (classify e).2 = false := by rw [classify_snd_eq]; simp [h9]
    rw [catch_other_ctx, catch_other_trace, h2]
    exact ⟨rfl, rfl⟩
  · intro h9
    have h2 : (classify e).2 = true := by rw [classify_snd_eq]; simp [h9]
    have hctx : (catch_other env e (app_main_try sdk env l s).loc
        (app_main_try sdk env l s).st).2.mem.ctx = env.ctx_initial := by
      rw [catch_other_ctx, h2]
      rfl
    refine ⟨hctx, ?_, ?_⟩
    · rw [catch_other_trace, h2]
      rfl
    · intro m2 r2 hx2 hr2 hframe
      refine ⟨hframe.trans hctx, ?_⟩
      rw [try_of_handler sdk env _ _ m2 r2 hx2 hr2]
  · intro m1 r hx hr
    rw [try_of_handler sdk env l s m1 r hx hr]

/-- C3 at `e = 0x6A80`, raised by a handler that left the context at `7`: the cycle ends with
the context at its initial value `0`. -/
theorem context_after_fault_witness :
    (app_main_try sdkNano (demoEnv (Except.ok 5) 3 (some 0x6A80))
        { rx := 0, tx := 0, flags := 0 } (demoState 7)).thrown = some 0x6A80 ∧
      0x6A80 ≠ sdkNano.EXCEPTION_IO_RESET ∧
      ∃ l1 s1, app_main_cycle sdkNano (demoEnv (Except.ok 5) 3 (some 0x6A80))
          { rx := 0, tx := 0, flags := 0 } (demoState 7) = CycleOut.next l1 s1 ∧
        s1.mem.ctx = 0 := by
  obtain ⟨l1, s1, hc, _, _, h6, _⟩ :=
    context_after_fault sdkNano (demoEnv (Except.ok 5) 3 (some 0x6A80))
      { rx := 0, tx := 0, flags := 0 } (demoState 7) 0x6A80 rfl (by decide)
  exact ⟨rfl, by decide, l1, s1, hc, (h6 (by decide)).1⟩

/-- C2, as stated, fails: a handler that returns normally after three reply bytes leaves the
pending length at 3, not 3 + 2; `app_main` stores no Status Word (bytes 3 and 4 of the
buffer keep their value 0) and makes no call besides the exchange and the handler. -/
theorem normal_return_appends_nothing :
    ((demoEnv (Except.ok 5) 3 none).handleApdu 0 0 (demoMem 7)).thrown = none ∧
      ((demoEnv (Except.ok 5) 3 none).handleApdu 0 0 (demoMem 7)).tx = 3 ∧
      (∃ s1, app_main_cycle sdkNano (demoEnv (Except.ok 5) 3 none)
          { rx := 0, tx := 0, flags := 0 } (demoState 7)
          = CycleOut.next { rx := 5, tx := 3, flags := 0 } s1 ∧
        s1.mem.G_io_apdu_buffer 3 = 0 ∧ s1.mem.G_io_apdu_buffer 4 = 0 ∧
        s1.trace = [Event.io_exchange 0 0, Event.handleApdu]) ∧
      ¬ ∃ l1 s1, app_main_cycle sdkNano (demoEnv (Except.ok 5) 3 none)
          { rx := 0, tx := 0, flags := 0 } (demoState 7) = CycleOut.next l1 s1 ∧
        l1.tx = 3 + 2 := by
  refine ⟨rfl, rfl, ⟨_, rfl, rfl, rfl, rfl⟩, ?_⟩
  rintro ⟨l1, s1, h, htx⟩
  have h2 : app_main_cycle sdkNano (demoEnv (Except.ok 5) 3 none)
      { rx := 0, tx := 0, flags := 0 } (demoState 7)
      = CycleOut.next { rx := 5, tx := 3, flags := 0 }
        (app_main_try sdkNano (demoEnv (Except.ok 5) 3 none)
          { rx := 0, tx := 0, flags := 0 } (demoState 7)).st := rfl
  rw [h2] at h
  injection h with hl _
  rw [← hl] at htx
  exact absurd htx (by decide)

/-- C2, amended: a cycle of `app_main` whose `TRY` block is left by a fault other than the
transport reset appends exactly one 2-byte Status Word (the pending length grows by 2, two
bytes of the buffer are stored, they hold the word big-endian); a cycle whose handler
returns normally appends none: the state is the one the handler left, and the next exchange
call is handed the handler's pending length `n` and its `n` bytes. -/
theorem status_words_per_cycle (sdk : Sdk) (env : Env C E) (l : Locals) (s : State C E) :
    (∀ e, (app_main_try sdk env l s).thrown = some e → e ≠ sdk.EXCEPTION_IO_RESET →
      ∃ l1 s1, app_main_cycle sdk env l s = CycleOut.next l1 s1 ∧
        l1.tx = ((app_main_try sdk env l s).loc.tx + 2) % 2 ^ 32 ∧
        (∀ i, i ≠ (app_main_try sdk env l s).loc.tx →
          i ≠ ((app_main_try sdk env l s).loc.tx + 1) % 2 ^ 32 →
          s1.mem.G_io_apdu_buffer i = (app_main_try sdk env l s).st.mem.G_io_apdu_buffer i) ∧
        s1.mem.G_io_apdu_buffer (app_main_try sdk env l s).loc.tx * 256
          + s1.mem.G_io_apdu_buffer (((app_main_try sdk env l s).loc.tx + 1) % 2 ^ 32)
          = (classify e).1) ∧
      (∀ m1 r n,
        env.io_exchange ((sdk.CHANNEL_APDU ||| l.flags) % 2 ^ 8) (l.tx % 2 ^ 16) s.mem
          = (m1, Except.ok r) →
        r % 2 ^ 16 ≠ 0 →
        (env.handleApdu 0 0 m1).thrown = none →
        (env.handleApdu 0 0 m1).tx = n →
        n < 2 ^ 16 →
        ∃ l1 s1, app_main_cycle sdk env l s = CycleOut.next l1 s1 ∧
          l1.tx = n ∧
          s1.mem = (env.handleApdu 0 0 m1).mem ∧
          s1.trace = s.trace ++
            [Event.io_exchange ((sdk.CHANNEL_APDU ||| l.flags) % 2 ^ 8) (l.tx % 2 ^ 16),
             Event.handleApdu] ∧
          ∃ rest, (app_main_try sdk env l1 s1).st.trace =
            s1.trace ++ Event.io_exchange ((sdk.CHANNEL_APDU ||| l1.flags) % 2 ^ 8) n
              :: rest) := by
  constructor
  · intro e hthrown hne
    refine ⟨_, _, cycle_of_fault sdk env l s e hthrown hne, catch_other_tx _ _ _ _, ?_,
      catch_other_readback _ _ _ _⟩
    intro i h1 h2
    rw [catch_other_buffer, setByte_other _ _ _ _ h2, setByte_other _ _ _ _ h1]
  · intro m1 r n hx hr hnone htx hn
    have ht := try_of_handler sdk env l s m1 r hx hr
    have hth : (app_main_try sdk env l s).thrown = none := by rw [ht]; exact hnone
    have hloc : (app_main_try sdk env l s).loc.tx = n := by
      rw [ht]
      show (env.handleApdu 0 0 m1).tx % 2 ^ 32 = n
      rw [htx]
      exact Nat.mod_eq_of_lt (by omega)
    refine ⟨_, _, cycle_of_none sdk env l s hth, hloc, by rw [ht], ?_, ?_⟩
    · rw [ht]
      simp
    · obtain ⟨rest, hrest⟩ := try_trace_head sdk env (app_main_try sdk env l s).loc
        (app_main_try sdk env l s).st
      rw [hloc, Nat.mod_eq_of_lt hn] at hrest
      exact ⟨rest, hrest⟩

/-- C2, amended, at a handler that returns normally after three reply bytes and at one that
raises `0x9000` after three reply bytes. -/
theorem status_words_per_cycle_witness :
    (∃ l1 s1, app_main_cycle sdkNano (demoEnv (Except.ok 5) 3 none)
        { rx := 0, tx := 0, flags := 0 } (demoState 7) = CycleOut.next l1 s1 ∧ l1.tx = 3) ∧
      (∃ l1 s1, app_main_cycle sdkNano (demoEnv (Except.ok 5) 3 (some 0x9000))
        { rx := 0, tx := 0, flags := 0 } (demoState 7) = CycleOut.next l1 s1 ∧
        l1.tx = 5) := by
  obtain ⟨l1, s1, hc, htx, _⟩ :=
    (status_words_per_cycle sdkNano (demoEnv (Except.ok 5) 3 none)
      { rx := 0, tx := 0, flags := 0 } (demoState 7)).2 (demoMem 7) 5 3 rfl (by decide)
      rfl rfl (by decide)
  obtain ⟨l2, s2, hc2, htx2, _⟩ :=
    (status_words_per_cycle sdkNano (demoEnv (Except.ok 5) 3 (some 0x9000))
      { rx := 0, tx := 0, flags := 0 } (demoState 7)).1 0x9000 rfl (by decide)
  exact ⟨⟨l1, s1, hc, htx⟩, ⟨l2, s2, hc2, htx2⟩⟩

/-! ## The transport multiplexer -/

theorem medium_or_flags (sdk : Sdk) (channel f : Nat) :
    medium sdk (channel ||| (f &&& sdk.IO_FLAGS)) = medium sdk channel := by
  apply Nat.eq_of_testBit_eq
  intro i
  simp only [medium, bnot32, Nat.testBit_and, Nat.testBit_or, Nat.testBit_xor,
    Nat.testBit_two_pow_sub_one, Nat.testBit_mod_two_pow]
  cases decide (i < 32) <;> cases sdk.IO_FLAGS.testBit i <;> cases channel.testBit i <;>
    cases f.testBit i <;> rfl

theorem exchange_al_keyboard (sdk : Sdk) (env : Env C E) (channel tx_len : Nat)
    (s : State C E) (hk : medium sdk channel = sdk.CHANNEL_KEYBOARD) :
    io_exchange_al sdk env channel tx_len s = (s, Except.ok 0) := by
  unfold io_exchange_al
  rw [if_pos hk]

theorem exchange_al_send (sdk : Sdk) (env : Env C E) (channel tx_len : Nat)
    (s : State C E) (hk : medium sdk channel ≠ sdk.CHANNEL_KEYBOARD)
    (hs : medium sdk channel = sdk.CHANNEL_SPI) (ht : tx_len ≠ 0) :
    io_exchange_al sdk env channel tx_len s =
      (if channel &&& sdk.IO_RESET_AFTER_REPLIED ≠ 0 then
          (s.log (Event.io_seproxyhal_spi_send
            ((List.range tx_len).map s.mem.G_io_apdu_buffer))).log Event.reset
        else s.log (Event.io_seproxyhal_spi_send
            ((List.range tx_len).map s.mem.G_io_apdu_buffer)),
       Except.ok 0) := by
  unfold io_exchange_al
  rw [if_neg hk, if_pos hs, if_pos ht]

theorem exchange_al_recv (sdk : Sdk) (env : Env C E) (channel tx_len : Nat)
    (s : State C E) (hk : medium sdk channel ≠ sdk.CHANNEL_KEYBOARD)
    (hs : medium sdk channel = sdk.CHANNEL_SPI) (ht : tx_len = 0) :
    io_exchange_al sdk env channel tx_len s =
      ({ mem := (env.io_seproxyhal_spi_recv sdk.IO_APDU_BUFFER_SIZE 0 s.mem).1,
         trace := s.trace ++ [Event.io_seproxyhal_spi_recv sdk.IO_APDU_BUFFER_SIZE 0] },
       Except.ok ((env.io_seproxyhal_spi_recv sdk.IO_APDU_BUFFER_SIZE 0 s.mem).2 % 2 ^ 16)) := by
  unfold io_exchange_al
  rw [if_neg hk, if_pos hs, if_neg (not_not.mpr ht)]

theorem exchange_al_invalid (sdk : Sdk) (env : Env C E) (channel tx_len : Nat)
    (s : State C E) (hk : medium sdk channel ≠ sdk.CHANNEL_KEYBOARD)
    (hs : medium sdk channel ≠ sdk.CHANNEL_SPI) :
    io_exchange_al sdk env channel tx_len s = (s, Except.error sdk.INVALID_PARAMETER) := by
  unfold io_exchange_al
  rw [if_neg hk, if_neg hs]

theorem exchange_al_error_iff (sdk : Sdk) (env : Env C E) (channel tx_len : Nat)
    (s : State C E) :
    (io_exchange_al sdk env channel tx_len s).2 = Except.error sdk.INVALID_PARAMETER ↔
      (medium sdk channel ≠ sdk.CHANNEL_KEYBOARD ∧ medium sdk channel ≠ sdk.CHANNEL_SPI) := by
  by_cases hk : medium sdk channel = sdk.CHANNEL_KEYBOARD
  · rw [exchange_al_keyboard sdk env channel tx_len s hk]
    simp [hk]
  · by_cases hs : medium sdk channel = sdk.CHANNEL_SPI
    · by_cases ht : tx_len = 0
      · rw [exchange_al_recv sdk env channel tx_len s hk hs ht]
        simp [hs]
      · rw [exchange_al_send sdk env channel tx_len s hk hs ht]
        simp [hs]
    · rw [exchange_al_invalid sdk env channel tx_len s hk hs]
      simp [hk, hs]

/-- C10: `io_exchange_al` raises `INVALID_PARAMETER` exactly when the medium tag
`channel & ~IO_FLAGS` is neither `CHANNEL_KEYBOARD` nor `CHANNEL_SPI`; it raises no other
fault; when it raises, the state is untouched (nothing sent, nothing received, no reset);
and setting flag bits in the channel byte changes neither the medium tag nor whether the
call raises. -/
theorem invalid_medium_fault (sdk : Sdk) (env : Env C E) (channel tx_len : Nat)
    (s : State C E) :
    ((io_exchange_al sdk env channel tx_len s).2 = Except.error sdk.INVALID_PARAMETER ↔
        (medium sdk channel ≠ sdk.CHANNEL_KEYBOARD ∧ medium sdk channel ≠ sdk.CHANNEL_SPI)) ∧
      (∀ e, (io_exchange_al sdk env channel tx_len s).2 = Except.error e →
        e = sdk.INVALID_PARAMETER ∧ (io_exchange_al sdk env channel tx_len s).1 = s) ∧
      (∀ f, medium sdk (channel ||| (f &&& sdk.IO_FLAGS)) = medium sdk channel ∧
        ((io_exchange_al sdk env (channel ||| (f &&& sdk.IO_FLAGS)) tx_len s).2
            = Except.error sdk.INVALID_PARAMETER ↔
          (io_exchange_al sdk env channel tx_len s).2
            = Except.error sdk.INVALID_PARAMETER)) := by
  refine ⟨exchange_al_error_iff sdk env channel tx_len s, ?_, ?_⟩
  · intro e he
    by_cases hk : medium sdk channel = sdk.CHANNEL_KEYBOARD
    · rw [exchange_al_keyboard sdk env channel tx_len s hk] at he
      exact absurd he (by simp)
    · by_cases hs : medium sdk channel = sdk.CHANNEL_SPI
      · by_cases ht : tx_len = 0
        · rw [exchange_al_recv sdk env channel tx_len s hk hs ht] at he
          exact absurd he (by simp)
        · rw [exchange_al_send sdk env channel tx_len s hk hs ht] at he
          exact absurd he (by simp)
      · rw [exchange_al_invalid sdk env channel tx_len s hk hs] at he ⊢
        injection he with he
        exact ⟨he.symm, rfl⟩
  · intro f
    refine ⟨medium_or_flags sdk channel f, ?_⟩
    rw [exchange_al_error_iff, exchange_al_error_iff, medium_or_flags]

/-- C10 on the Nano S constants: medium tag 3 with the reset flag set raises
`INVALID_PARAMETER` and leaves the trace empty. -/
theorem invalid_medium_fault_witness :
    (io_exchange_al sdkNano (demoEnv (Except.ok 5) 3 none) 0x83 4 (demoState 7)).2
        = Except.error sdkNano.INVALID_PARAMETER ∧
      (io_exchange_al sdkNano (demoEnv (Except.ok 5) 3 none) 0x83 4 (demoState 7)).1
        = demoState 7 :=
  ⟨(invalid_medium_fault sdkNano (demoEnv (Except.ok 5) 3 none) 0x83 4 (demoState 7)).1.mpr
      (by decide),
    ((invalid_medium_fault sdkNano (demoEnv (Except.ok 5) 3 none) 0x83 4 (demoState 7)).2.1
      sdkNano.INVALID_PARAMETER rfl).2⟩

/-- C9, as stated, fails on the keyboard medium, which `io_exchange_al` accepts: with
`tx_len = 3` nothing is transmitted, and with `tx_len = 0` nothing is received and the
result is 0 although the receive primitive would deliver 5 bytes. -/
theorem keyboard_medium_is_silent :
    medium sdkNano 1 = sdkNano.CHANNEL_KEYBOARD ∧
      (io_exchange_al sdkNano (demoEnv (Except.ok 5) 3 none) 1 3 (demoState 7)).2
        = Except.ok 0 ∧
      (io_exchange_al sdkNano (demoEnv (Except.ok 5) 3 none) 1 3 (demoState 7)).1.trace
        = [] ∧
      (io_exchange_al sdkNano (demoEnv (Except.ok 5) 3 none) 1 0 (demoState 7)).2
        = Except.ok 0 ∧
      (io_exchange_al sdkNano (demoEnv (Except.ok 5) 3 none) 1 0 (demoState 7)).1.trace
        = [] ∧
      ((demoEnv (Except.ok 5) 3 none).io_seproxyhal_spi_recv
        sdkNano.IO_APDU_BUFFER_SIZE 0 (demoState 7).mem).2 = 5 :=
  ⟨by decide, rfl, rfl, rfl, rfl, rfl⟩

/-- C9, amended: when the medium tag is `CHANNEL_SPI`, a call with `tx_len > 0` transmits
the first `tx_len` bytes of the reply buffer exactly once, triggers the reset after the
transmission exactly when `IO_RESET_AFTER_REPLIED` is set in the channel byte, receives
nothing and returns 0, and a call with `tx_len = 0` transmits nothing and returns the count
the receive primitive delivers (as an `unsigned short`); when the medium tag is
`CHANNEL_KEYBOARD` the call transmits nothing, receives nothing and returns 0. -/
theorem spi_exchange (sdk : Sdk) (env : Env C E) (channel tx_len : Nat) (s : State C E) :
    (medium sdk channel = sdk.CHANNEL_KEYBOARD →
        io_exchange_al sdk env channel tx_len s = (s, Except.ok 0)) ∧
      (medium sdk channel ≠ sdk.CHANNEL_KEYBOARD → medium sdk channel = sdk.CHANNEL_SPI →
        (tx_len ≠ 0 →
          (io_exchange_al sdk env channel tx_len s).2 = Except.ok 0 ∧
          (io_exchange_al sdk env channel tx_len s).1.mem = s.mem ∧
          (io_exchange_al sdk env channel tx_len s).1.trace =
            s.trace ++
              Event.io_seproxyhal_spi_send ((List.range tx_len).map s.mem.G_io_apdu_buffer)
                :: (if channel &&& sdk.IO_RESET_AFTER_REPLIED ≠ 0 then [Event.reset]
                    else [])) ∧
        (tx_len = 0 →
          (io_exchange_al sdk env channel tx_len s).2 =
            Except.ok ((env.io_seproxyhal_spi_recv sdk.IO_APDU_BUFFER_SIZE 0 s.mem).2
              % 2 ^ 16) ∧
          (io_exchange_al sdk env channel tx_len s).1.mem =
            (env.io_seproxyhal_spi_recv sdk.IO_APDU_BUFFER_SIZE 0 s.mem).1 ∧
          (io_exchange_al sdk env channel tx_len s).1.trace =
            s.trace ++ [Event.io_seproxyhal_spi_recv sdk.IO_APDU_BUFFER_SIZE 0])) := by
  refine ⟨exchange_al_keyboard sdk env channel tx_len s, ?_⟩
  intro hk hs
  refine ⟨?_, ?_⟩
  · intro ht
    rw [exchange_al_send sdk env channel tx_len s hk hs ht]
    by_cases hf : channel &&& sdk.IO_RESET_AFTER_REPLIED = 0
    · simp [hf, State.log]
    · simp [hf, State.log]
  · intro ht
    rw [exchange_al_recv sdk env channel tx_len s hk hs ht]
    exact ⟨rfl, rfl, rfl⟩

/-- C9, amended, on the Nano S constants: a 3-byte send on the SPI channel with the reset
flag set. -/
theorem spi_exchange_witness :
    medium sdkNano 0x82 ≠ sdkNano.CHANNEL_KEYBOARD ∧
      medium sdkNano 0x82 = sdkNano.CHANNEL_SPI ∧
      (io_exchange_al sdkNano (demoEnv (Except.ok 5) 3 none) 0x82 3 (demoState 7)).2
        = Except.ok 0 ∧
      (io_exchange_al sdkNano (demoEnv (Except.ok 5) 3 none) 0x82 3 (demoState 7)).1.trace
        = [Event.io_seproxyhal_spi_send [0, 0, 0], Event.reset] := by
  have h := ((spi_exchange sdkNano (demoEnv (Except.ok 5) 3 none) 0x82 3 (demoState 7)).2
    (by decide) (by decide)).1 (by decide)
  exact ⟨by decide, by decide, h.1, h.2.2.trans (by decide)⟩

/-! ## Traces of the two loops -/

theorem opsRun_append (a b : List Event) : opsRun (a ++ b) = opsRun a + opsRun b := by
  simp [opsRun, List.countP_append]

theorem setup_trace (sdk : Sdk) (env : Env C E) (s : State C E) :
    (coin_main_setup sdk env s).trace = s.trace ++ setupEvents sdk := by
  unfold coin_main_setup setupEvents
  cases sdk.TARGET_NANOX <;> cases sdk.HAVE_BLE <;>
    simp [State.log, resetTransactionContext]

theorem setup_ctx (sdk : Sdk) (env : Env C E) (s : State C E) :
    (coin_main_setup sdk env s).mem.ctx = env.ctx_initial := by
  unfold coin_main_setup
  cases sdk.TARGET_NANOX <;> cases sdk.HAVE_BLE <;>
    simp [State.log, resetTransactionContext]

theorem opsRun_setupEvents (sdk : Sdk) : opsRun (setupEvents sdk) = 0 := by
  unfold setupEvents
  cases sdk.TARGET_NANOX <;> cases sdk.HAVE_BLE <;> simp [opsRun, isDelegatedOp]

theorem try_ext (sdk : Sdk) (env : Env C E) (l : Locals) (s : State C E) :
    ∃ ext, (app_main_try sdk env l s).st.trace =
        s.trace ++ Event.io_exchange ((sdk.CHANNEL_APDU ||| l.flags) % 2 ^ 8)
          (l.tx % 2 ^ 16) :: ext ∧
      opsRun ext = 0 := by
  unfold app_main_try
  dsimp only
  split
  · exact ⟨[], rfl, rfl⟩
  · split
    · exact ⟨[], rfl, rfl⟩
    · exact ⟨[Event.handleApdu], by simp, rfl⟩

theorem catch_ext (env : Env C E) (e : Nat) (l : Locals) (s : State C E) :
    ∃ ext, (catch_other env e l s).2.trace = s.trace ++ ext ∧ opsRun ext = 0 := by
  rw [catch_other_trace]
  split
  · exact ⟨[Event.resetTransactionContext], rfl, rfl⟩
  · exact ⟨[], by simp, rfl⟩

theorem cycle_ext (sdk : Sdk) (env : Env C E) (l : Locals) (s : State C E) :
    ∃ ext, (app_main_cycle sdk env l s).state.trace =
        s.trace ++ Event.io_exchange ((sdk.CHANNEL_APDU ||| l.flags) % 2 ^ 8)
          (l.tx % 2 ^ 16) :: ext ∧
      opsRun ext = 0 := by
  obtain ⟨ext, hext, hops⟩ := try_ext sdk env l s
  cases hth : (app_main_try sdk env l s).thrown with
  | none =>
    rw [cycle_of_none sdk env l s hth]
    exact ⟨ext, hext, hops⟩
  | some e =>
    by_cases he : e = sdk.EXCEPTION_IO_RESET
    · rw [he] at hth
      rw [cycle_of_reset sdk env l s hth]
      exact ⟨ext, hext, hops⟩
    · rw [cycle_of_fault sdk env l s e hth he]
      obtain ⟨ext2, hext2, hops2⟩ := catch_ext env e (app_main_try sdk env l s).loc
        (app_main_try sdk env l s).st
      refine ⟨ext ++ ext2, ?_, ?_⟩
      · show (catch_other env e _ _).2.trace = _
        rw [hext2, hext]
        simp
      · rw [opsRun_append, hops, hops2]

theorem loop_succ (sdk : Sdk) (env : Env C E) (k : Nat) (l : Locals) (s : State C E) :
    app_main_loop sdk env (k + 1) l s =
      match app_main_cycle sdk env l s with
      | CycleOut.next l1 s1 => app_main_loop sdk env k l1 s1
      | CycleOut.throw e s1 => RunOut.threw e s1 := rfl

theorem loop_ext (sdk : Sdk) (env : Env C E) (k : Nat) :
    ∀ (l : Locals) (s : State C E),
      ∃ ext, (app_main_loop sdk env k l s).state.trace = s.trace ++ ext ∧ opsRun ext = 0 := by
  induction k with
  | zero =>
    intro l s
    exact ⟨[], by simp [app_main_loop, RunOut.state], rfl⟩
  | succ k ih =>
    intro l s
    obtain ⟨ext, hext, hops⟩ := cycle_ext sdk env l s
    rw [loop_succ]
    cases hc : app_main_cycle sdk env l s with
    | next l1 s1 =>
      rw [hc] at hext
      obtain ⟨ext2, hext2, hops2⟩ := ih l1 s1
      refine ⟨Event.io_exchange ((sdk.CHANNEL_APDU ||| l.flags) % 2 ^ 8)
        (l.tx % 2 ^ 16) :: ext ++ ext2, ?_, ?_⟩
      · show (app_main_loop sdk env k l1 s1).state.trace = _
        rw [hext2]
        simp only [CycleOut.state] at hext
        rw [hext]
        simp
      · rw [opsRun_append, hops2]
        simpa [opsRun, isDelegatedOp] using hops
    | throw e s1 =>
      rw [hc] at hext
      refine ⟨Event.io_exchange ((sdk.CHANNEL_APDU ||| l.flags) % 2 ^ 8)
        (l.tx % 2 ^ 16) :: ext, ?_, ?_⟩
      · exact hext
      · simpa [opsRun, isDelegatedOp] using hops

theorem loop_head (sdk : Sdk) (env : Env C E) (k : Nat) (l : Locals) (s : State C E) :
    ∃ ext, (app_main_loop sdk env (k + 1) l s).state.trace =
      s.trace ++ Event.io_exchange ((sdk.CHANNEL_APDU ||| l.flags) % 2 ^ 8)
        (l.tx % 2 ^ 16) :: ext := by
  obtain ⟨ext, hext, _⟩ := cycle_ext sdk env l s
  rw [loop_succ]
  cases hc : app_main_cycle sdk env l s with
  | next l1 s1 =>
    rw [hc] at hext
    obtain ⟨ext2, hext2, _⟩ := loop_ext sdk env k l1 s1
    refine ⟨ext ++ ext2, ?_⟩
    show (app_main_loop sdk env k l1 s1).state.trace = _
    rw [hext2]
    simp only [CycleOut.state] at hext
    rw [hext]
    simp
  | throw e s1 =>
    rw [hc] at hext
    exact ⟨ext, hext⟩

theorem coin_main_succ (sdk : Sdk) (env : Env C E) (fuel outer : Nat) (s : State C E) :
    coin_main sdk env fuel (outer + 1) s =
      match app_main sdk env fuel (coin_main_setup sdk env s) with
      | RunOut.threw e s1 =>
        if e = sdk.EXCEPTION_IO_RESET then coin_main sdk env fuel outer s1
        else RunOut.returned (app_exit s1)
      | RunOut.returned s1 => coin_main sdk env fuel outer s1
      | RunOut.unfinished s1 => RunOut.unfinished s1 := rfl

theorem coin_main_ext (sdk : Sdk) (env : Env C E) (fuel outer : Nat) :
    ∀ s : State C E,
      ∃ ext, (coin_main sdk env fuel outer s).state.trace = s.trace ++ ext ∧
        opsRun ext = 0 := by
  induction outer with
  | zero =>
    intro s
    exact ⟨[], by simp [coin_main, RunOut.state], rfl⟩
  | succ outer ih =>
    intro s
    obtain ⟨ext, hext, hops⟩ := loop_ext sdk env fuel { rx := 0, tx := 0, flags := 0 }
      (coin_main_setup sdk env s)
    rw [setup_trace] at hext
    rw [coin_main_succ]
    cases ha : app_main sdk env fuel (coin_main_setup sdk env s) with
    | threw e s1 =>
      have h1 : s1.trace = s.trace ++ setupEvents sdk ++ ext := by
        have := hext
        unfold app_main at ha
        rw [ha] at this
        exact this
      by_cases he : e = sdk.EXCEPTION_IO_RESET
      · obtain ⟨ext2, hext2, hops2⟩ := ih s1
        refine ⟨setupEvents sdk ++ ext ++ ext2, ?_, ?_⟩
        · simp only [he, if_true]
          rw [hext2, h1]
          simp
        · rw [opsRun_append, opsRun_append, opsRun_setupEvents, hops, hops2]
      · refine ⟨setupEvents sdk ++ ext ++ [Event.os_sched_exit 1], ?_, ?_⟩
        · simp only [he, if_false]
          show (app_exit s1).trace = _
          simp [app_exit, State.log, h1]
        · rw [opsRun_append, opsRun_append, opsRun_setupEvents, hops]
          rfl
    | returned s1 =>
      have h1 : s1.trace = s.trace ++ setupEvents sdk ++ ext := by
        have := hext
        unfold app_main at ha
        rw [ha] at this
        exact this
      obtain ⟨ext2, hext2, hops2⟩ := ih s1
      refine ⟨setupEvents sdk ++ ext ++ ext2, ?_, ?_⟩
      · show (coin_main sdk env fuel outer s1).state.trace = _
        rw [hext2, h1]
        simp
      · rw [opsRun_append, opsRun_append, opsRun_setupEvents, hops, hops2]
    | unfinished s1 =>
      have h1 : s1.trace = s.trace ++ setupEvents sdk ++ ext := by
        have := hext
        unfold app_main at ha
        rw [ha] at this
        exact this
      refine ⟨setupEvents sdk ++ ext, ?_, ?_⟩
      · show s1.trace = _
        rw [h1]
        simp
      · rw [opsRun_append, opsRun_setupEvents, hops]

theorem coin_main_head (sdk : Sdk) (env : Env C E) (fuel outer : Nat) (s : State C E) :
    ∃ ext, (coin_main sdk env (fuel + 1) (outer + 1) s).state.trace =
      s.trace ++ setupEvents sdk
        ++ Event.io_exchange ((sdk.CHANNEL_APDU ||| 0) % 2 ^ 8) 0 :: ext := by
  obtain ⟨ext, hext⟩ := loop_head sdk env fuel { rx := 0, tx := 0, flags := 0 }
    (coin_main_setup sdk env s)
  rw [setup_trace] at hext
  have hz : (0 : Nat) % 2 ^ 16 = 0 := by decide
  simp only [hz] at hext
  rw [coin_main_succ]
  cases ha : app_main sdk env (fuel + 1) (coin_main_setup sdk env s) with
  | threw e s1 =>
    have h1 : s1.trace = s.trace ++ setupEvents sdk
        ++ Event.io_exchange ((sdk.CHANNEL_APDU ||| 0) % 2 ^ 8) 0 :: ext := by
      have := hext
      unfold app_main at ha
      rw [ha] at this
      exact this
    by_cases he : e = sdk.EXCEPTION_IO_RESET
    · obtain ⟨ext2, hext2, _⟩ := coin_main_ext sdk env (fuel + 1) outer s1
      refine ⟨ext ++ ext2, ?_⟩
      simp only [he, if_true]
      rw [hext2, h1]
      simp
    · refine ⟨ext ++ [Event.os_sched_exit 1], ?_⟩
      simp only [he, if_false]
      show (app_exit s1).trace = _
      simp [app_exit, State.log, h1]
  | returned s1 =>
    have h1 : s1.trace = s.trace ++ setupEvents sdk
        ++ Event.io_exchange ((sdk.CHANNEL_APDU ||| 0) % 2 ^ 8) 0 :: ext := by
      have := hext
      unfold app_main at ha
      rw [ha] at this
      exact this
    obtain ⟨ext2, hext2, _⟩ := coin_main_ext sdk env (fuel + 1) outer s1
    refine ⟨ext ++ ext2, ?_⟩
    show (coin_main sdk env (fuel + 1) outer s1).state.trace = _
    rw [hext2, h1]
    simp
  | unfinished s1 =>
    have h1 : s1.trace = s.trace ++ setupEvents sdk
        ++ Event.io_exchange ((sdk.CHANNEL_APDU ||| 0) % 2 ^ 8) 0 :: ext := by
      have := hext
      unfold app_main at ha
      rw [ha] at this
      exact this
    exact ⟨ext, h1⟩

/-! ## Entry points -/

theorem switch_trace (sdk : Sdk) (env : Env C E) (c p : Nat) (s : State C E) :
    (library_switch sdk env c p s).1.trace = s.trace ++ selectedOps sdk c p := by
  unfold library_switch selectedOps
  by_cases h1 : c = sdk.CHECK_ADDRESS
  · rw [if_pos h1, if_pos h1]
    rfl
  · by_cases h2 : c = sdk.SIGN_TRANSACTION
    · rw [if_neg h1, if_neg h1, if_pos h2, if_pos h2]
      rfl
    · by_cases h3 : c = sdk.GET_PRINTABLE_AMOUNT
      · rw [if_neg h1, if_neg h1, if_neg h2, if_neg h2, if_pos h3, if_pos h3]
        rfl
      · rw [if_neg h1, if_neg h1, if_neg h2, if_neg h2, if_neg h3, if_neg h3]
        simp

theorem opsRun_selected (sdk : Sdk) (c p : Nat) :
    opsRun (selectedOps sdk c p) =
      if c = sdk.CHECK_ADDRESS ∨ c = sdk.SIGN_TRANSACTION ∨ c = sdk.GET_PRINTABLE_AMOUNT
      then 1 else 0 := by
  unfold selectedOps
  by_cases h1 : c = sdk.CHECK_ADDRESS
  · rw [if_pos h1, if_pos (Or.inl h1)]
    rfl
  · by_cases h2 : c = sdk.SIGN_TRANSACTION
    · rw [if_neg h1, if_pos h2, if_pos (Or.inr (Or.inl h2))]
      rfl
    · by_cases h3 : c = sdk.GET_PRINTABLE_AMOUNT
      · rw [if_neg h1, if_neg h2, if_pos h3, if_pos (Or.inr (Or.inr h3))]
        rfl
      · rw [if_neg h1, if_neg h2, if_neg h3, if_neg (by tauto)]
        rfl

theorem libEnds_selected (sdk : Sdk) (c p : Nat) : libEnds (selectedOps sdk c p) = 0 := by
  unfold selectedOps
  by_cases h1 : c = sdk.CHECK_ADDRESS
  · rw [if_pos h1]
    rfl
  · by_cases h2 : c = sdk.SIGN_TRANSACTION
    · rw [if_neg h1, if_pos h2]
      rfl
    · by_cases h3 : c = sdk.GET_PRINTABLE_AMOUNT
      · rw [if_neg h1, if_neg h2, if_pos h3]
        rfl
      · rw [if_neg h1, if_neg h2, if_neg h3]
        rfl

theorem selected_check (sdk : Sdk) (c p : Nat) (h1 : c = sdk.CHECK_ADDRESS) :
    selectedOps sdk c p = [Event.handle_check_address p] := by
  unfold selectedOps
  rw [if_pos h1]

theorem selected_sign (sdk : Sdk) (c p : Nat) (h1 : c ≠ sdk.CHECK_ADDRESS)
    (h2 : c = sdk.SIGN_TRANSACTION) :
    selectedOps sdk c p = [Event.handle_swap_sign_transaction p] := by
  unfold selectedOps
  rw [if_neg h1, if_pos h2]

theorem selected_amount (sdk : Sdk) (c p : Nat) (h1 : c ≠ sdk.CHECK_ADDRESS)
    (h2 : c ≠ sdk.SIGN_TRANSACTION) (h3 : c = sdk.GET_PRINTABLE_AMOUNT) :
    selectedOps sdk c p = [Event.handle_get_printable_amount p] := by
  unfold selectedOps
  rw [if_neg h1, if_neg h2, if_pos h3]

theorem libEnds_append (a b : List Event) : libEnds (a ++ b) = libEnds a + libEnds b := by
  simp [libEnds, List.count_append]

theorem library_main_trace (sdk : Sdk) (env : Env C E) (c p : Nat) (s : State C E)
    (hapi : (env.check_api_level sdk.CX_COMPAT_APILEVEL s.mem).2 = none) :
    (∀ e, (library_switch sdk env c p
        (runOp env.check_api_level (Event.check_api_level sdk.CX_COMPAT_APILEVEL)
          sdk.CX_COMPAT_APILEVEL s).1).2 = some e →
      ∃ s1, library_main sdk env c p s = RunOut.threw e s1 ∧
        s1.trace = s.trace ++ [Event.check_api_level sdk.CX_COMPAT_APILEVEL]
          ++ selectedOps sdk c p) ∧
    ((library_switch sdk env c p
        (runOp env.check_api_level (Event.check_api_level sdk.CX_COMPAT_APILEVEL)
          sdk.CX_COMPAT_APILEVEL s).1).2 = none →
      ∃ s1, library_main sdk env c p s = RunOut.returned s1 ∧
        s1.trace = s.trace ++ [Event.check_api_level sdk.CX_COMPAT_APILEVEL]
          ++ selectedOps sdk c p ++ [Event.os_lib_end]) := by
  have ha : (runOp env.check_api_level (Event.check_api_level sdk.CX_COMPAT_APILEVEL)
      sdk.CX_COMPAT_APILEVEL s).2 = none := hapi
  have hsw := switch_trace sdk env c p
    (runOp env.check_api_level (Event.check_api_level sdk.CX_COMPAT_APILEVEL)
      sdk.CX_COMPAT_APILEVEL s).1
  have hbase : (runOp env.check_api_level (Event.check_api_level sdk.CX_COMPAT_APILEVEL)
      sdk.CX_COMPAT_APILEVEL s).1.trace =
      s.trace ++ [Event.check_api_level sdk.CX_COMPAT_APILEVEL] := rfl
  rw [hbase] at hsw
  constructor
  · intro e hb
    refine ⟨(library_switch sdk env c p
      (runOp env.check_api_level (Event.check_api_level sdk.CX_COMPAT_APILEVEL)
        sdk.CX_COMPAT_APILEVEL s).1).1, ?_, hsw⟩
    unfold library_main
    simp only [ha, hb]
  · intro hb
    refine ⟨(library_switch sdk env c p
      (runOp env.check_api_level (Event.check_api_level sdk.CX_COMPAT_APILEVEL)
        sdk.CX_COMPAT_APILEVEL s).1).1.log Event.os_lib_end, ?_, ?_⟩
    · unfold library_main
      simp only [ha, hb]
    · show (library_switch sdk env c p _).1.trace ++ [Event.os_lib_end] = _
      rw [hsw]

theorem main_delegated (sdk : Sdk) (env : Env C E) (fuel outer arg0 : Nat)
    (words : Nat → Nat) (s : State C E) (harg : arg0 ≠ 0) (hmagic : words 0 = 0x100) :
    main sdk env fuel outer arg0 words s =
      library_main sdk env (words 1) (words 3) (s.log Event.os_boot) := by
  unfold main
  simp only [harg, hmagic, if_false, ne_eq, not_true_eq_false]

/-- C8: `main` with a null argument runs `coin_main` (after `os_boot`) and no delegated
operation; with a non-null argument whose first word is not `0x100` it calls `app_exit` and
returns: the only calls made are `os_boot` and `os_sched_exit(1)`, so `library_main`, the
three operations, the dispatcher and the transport are never reached. -/
theorem entry_mode_selection (sdk : Sdk) (env : Env C E) (fuel outer arg0 : Nat)
    (words : Nat → Nat) (s : State C E) :
    (arg0 = 0 →
        main sdk env fuel outer arg0 words s
          = coin_main sdk env fuel outer (s.log Event.os_boot) ∧
        opsRun (main sdk env fuel outer arg0 words s).state.trace = opsRun s.trace) ∧
      (arg0 ≠ 0 → words 0 ≠ 0x100 →
        main sdk env fuel outer arg0 words s =
          RunOut.returned
            { mem := s.mem, trace := s.trace ++ [Event.os_boot, Event.os_sched_exit 1] }) := by
  refine ⟨?_, ?_⟩
  · intro h0
    have hm : main sdk env fuel outer arg0 words s
        = coin_main sdk env fuel outer (s.log Event.os_boot) := by
      unfold main
      simp only [h0, if_true]
    refine ⟨hm, ?_⟩
    obtain ⟨ext, hext, hops⟩ := coin_main_ext sdk env fuel outer (s.log Event.os_boot)
    rw [hm, hext, opsRun_append, hops]
    simp [State.log, opsRun, isDelegatedOp]
  · intro h0 hw
    unfold main
    simp [h0, hw, app_exit, State.log]

/-- C8 on a non-null argument block whose first word is `0x101`. -/
theorem entry_mode_selection_witness :
    (main sdkNano (demoEnv (Except.ok 5) 3 none) 4 4 0x2000 (fun _ => 0x101)
        (demoState 7)).state.trace = [Event.os_boot, Event.os_sched_exit 1] ∧
      opsRun (main sdkNano (demoEnv (Except.ok 5) 3 none) 4 4 0 (fun _ => 0x101)
        (demoState 7)).state.trace = 0 := by
  have h1 := (entry_mode_selection sdkNano (demoEnv (Except.ok 5) 3 none) 4 4 0x2000
    (fun _ => 0x101) (demoState 7)).2 (by decide) (by decide)
  have h2 := ((entry_mode_selection sdkNano (demoEnv (Except.ok 5) 3 none) 4 4 0
    (fun _ => 0x101) (demoState 7)).1 rfl).2
  exact ⟨by rw [h1]; rfl, h2⟩

/-- C7, as stated, fails: a delegated invocation whose selector word is 7, none of the three
known values, runs none of the three operations; `library_main` checks the API level and
signals `os_lib_end`. -/
theorem unknown_selector_runs_nothing :
    (main sdkNano (demoEnv (Except.ok 5) 3 none) 4 4 0x2000
        (fun i => if i = 0 then 0x100 else if i = 1 then 7 else 0)
        (demoState 7)).state.trace
        = [Event.os_boot, Event.check_api_level 9, Event.os_lib_end] ∧
      opsRun (main sdkNano (demoEnv (Except.ok 5) 3 none) 4 4 0x2000
        (fun i => if i = 0 then 0x100 else if i = 1 then 7 else 0)
        (demoState 7)).state.trace = 0 ∧
      7 ≠ sdkNano.CHECK_ADDRESS ∧ 7 ≠ sdkNano.SIGN_TRANSACTION ∧
      7 ≠ sdkNano.GET_PRINTABLE_AMOUNT :=
  ⟨rfl, rfl, by decide, by decide, by decide⟩

/-- C7, amended: in a delegated invocation of `main` (non-null argument, first word `0x100`)
whose API-level check passes, `library_main` runs exactly one of the three operations, the
one the selector names, when the selector is `CHECK_ADDRESS`, `SIGN_TRANSACTION` or
`GET_PRINTABLE_AMOUNT`, and none for any other selector; when no fault escapes the switch it
then signals `os_lib_end` exactly once, as its last call, and when a fault escapes it does
not signal it. -/
theorem delegated_dispatch (sdk : Sdk) (env : Env C E) (fuel outer arg0 : Nat)
    (words : Nat → Nat) (s : State C E)
    (harg : arg0 ≠ 0) (hmagic : words 0 = 0x100)
    (hapi : (env.check_api_level sdk.CX_COMPAT_APILEVEL s.mem).2 = none) :
    opsRun (main sdk env fuel outer arg0 words s).state.trace =
        opsRun s.trace +
          (if words 1 = sdk.CHECK_ADDRESS ∨ words 1 = sdk.SIGN_TRANSACTION ∨
              words 1 = sdk.GET_PRINTABLE_AMOUNT then 1 else 0) ∧
      (words 1 = sdk.CHECK_ADDRESS →
        Event.handle_check_address (words 3)
          ∈ (main sdk env fuel outer arg0 words s).state.trace) ∧
      (words 1 ≠ sdk.CHECK_ADDRESS → words 1 = sdk.SIGN_TRANSACTION →
        Event.handle_swap_sign_transaction (words 3)
          ∈ (main sdk env fuel outer arg0 words s).state.trace) ∧
      (words 1 ≠ sdk.CHECK_ADDRESS → words 1 ≠ sdk.SIGN_TRANSACTION →
        words 1 = sdk.GET_PRINTABLE_AMOUNT →
        Event.handle_get_printable_amount (words 3)
          ∈ (main sdk env fuel outer arg0 words s).state.trace) ∧
      ((library_switch sdk env (words 1) (words 3)
          (runOp env.check_api_level (Event.check_api_level sdk.CX_COMPAT_APILEVEL)
            sdk.CX_COMPAT_APILEVEL (s.log Event.os_boot)).1).2 = none →
        ∃ s1, main sdk env fuel outer arg0 words s = RunOut.returned s1 ∧
          libEnds s1.trace = libEnds s.trace + 1 ∧
          s1.trace.getLast? = some Event.os_lib_end) ∧
      (∀ e, (library_switch sdk env (words 1) (words 3)
          (runOp env.check_api_level (Event.check_api_level sdk.CX_COMPAT_APILEVEL)
            sdk.CX_COMPAT_APILEVEL (s.log Event.os_boot)).1).2 = some e →
        ∃ s1, main sdk env fuel outer arg0 words s = RunOut.threw e s1 ∧
          libEnds s1.trace = libEnds s.trace) := by
  have hm := main_delegated sdk env fuel outer arg0 words s harg hmagic
  obtain ⟨hthrew, hret⟩ :=
    library_main_trace sdk env (words 1) (words 3) (s.log Event.os_boot) hapi
  have htr : ∃ tail, (main sdk env fuel outer arg0 words s).state.trace =
      s.trace ++ [Event.os_boot] ++ [Event.check_api_level sdk.CX_COMPAT_APILEVEL]
        ++ selectedOps sdk (words 1) (words 3) ++ tail ∧ opsRun tail = 0 := by
    cases hb : (library_switch sdk env (words 1) (words 3)
        (runOp env.check_api_level (Event.check_api_level sdk.CX_COMPAT_APILEVEL)
          sdk.CX_COMPAT_APILEVEL (s.log Event.os_boot)).1).2 with
    | none =>
      obtain ⟨s1, h1, h2⟩ := hret hb
      refine ⟨[Event.os_lib_end], ?_, rfl⟩
      rw [hm, h1]
      show s1.trace = _
      rw [h2]
      simp [State.log]
    | some e =>
      obtain ⟨s1, h1, h2⟩ := hthrew e hb
      refine ⟨[], ?_, rfl⟩
      rw [hm, h1]
      show s1.trace = _
      rw [h2]
      simp [State.log]
  obtain ⟨tail, htail, htops⟩ := htr
  refine ⟨?_, ?_, ?_, ?_, ?_, ?_⟩
  · rw [htail, opsRun_append, opsRun_append, opsRun_append, opsRun_append, htops,
      opsRun_selected]
    simp [opsRun, isDelegatedOp]
  · intro h1
    rw [htail, selected_check sdk _ _ h1]
    simp
  · intro h1 h2
    rw [htail, selected_sign sdk _ _ h1 h2]
    simp
  · intro h1 h2 h3
    rw [htail, selected_amount sdk _ _ h1 h2 h3]
    simp
  · intro hb
    obtain ⟨s1, h1, h2⟩ := hret hb
    refine ⟨s1, by rw [hm, h1], ?_, ?_⟩
    · rw [h2, libEnds_append, libEnds_append, libEnds_append, libEnds_selected]
      simp [State.log, libEnds, List.count_append]
    · rw [h2]
      exact List.getLast?_concat _
  · intro e hb
    obtain ⟨s1, h1, h2⟩ := hthrew e hb
    refine ⟨s1, by rw [hm, h1], ?_⟩
    rw [h2, libEnds_append, libEnds_append, libEnds_selected]
    simp [State.log, libEnds, List.count_append]

/-- C7, amended, on the Nano S constants with selector `SIGN_TRANSACTION`: one operation
runs. -/
theorem delegated_dispatch_witness :
    (0x2000 : Nat) ≠ 0 ∧
      (fun i => if i = 0 then 0x100 else if i = 1 then 2 else 0x3000 : Nat → Nat) 0 = 0x100 ∧
      ((demoEnv (Except.ok 5) 3 none).check_api_level sdkNano.CX_COMPAT_APILEVEL
        (demoState 7).mem).2 = none ∧
      opsRun (main sdkNano (demoEnv (Except.ok 5) 3 none) 4 4 0x2000
        (fun i => if i = 0 then 0x100 else if i = 1 then 2 else 0x3000)
        (demoState 7)).state.trace = 1 :=
  ⟨by decide, rfl, rfl,
    (delegated_dispatch sdkNano (demoEnv (Except.ok 5) 3 none) 4 4 0x2000
      (fun i => if i = 0 then 0x100 else if i = 1 then 2 else 0x3000) (demoState 7)
      (by decide) rfl rfl).1⟩

/-! ## Transport reset -/

/-- C6: in a cycle of `app_main` where `io_exchange` raises the transport-reset fault, or
where it delivers a command and `handleApdu` raises that fault, the fault leaves the `TRY`
block and the cycle does not classify it: the state is the one the exchange (resp. the
handler) left, with no Status Word stored, no context reset and no call after the raising
one; the fault leaves `app_main`, so the handler's pending reply reaches no exchange call;
`coin_main` catches it and starts a new pass, which calls `resetTransactionContext` and the
set-up calls and then `app_main`, whose first exchange is made with pending length 0. -/
theorem transport_reset_unwinds (sdk : Sdk) (env : Env C E) (l : Locals) (s : State C E)
    (hraise :
      (∃ m1,
        env.io_exchange ((sdk.CHANNEL_APDU ||| l.flags) % 2 ^ 8) (l.tx % 2 ^ 16) s.mem
          = (m1, Except.error sdk.EXCEPTION_IO_RESET)) ∨
      (∃ m1 r,
        env.io_exchange ((sdk.CHANNEL_APDU ||| l.flags) % 2 ^ 8) (l.tx % 2 ^ 16) s.mem
          = (m1, Except.ok r) ∧
        r % 2 ^ 16 ≠ 0 ∧
        (env.handleApdu 0 0 m1).thrown = some sdk.EXCEPTION_IO_RESET)) :
    (app_main_try sdk env l s).thrown = some sdk.EXCEPTION_IO_RESET ∧
      app_main_cycle sdk env l s =
        CycleOut.throw sdk.EXCEPTION_IO_RESET (app_main_try sdk env l s).st ∧
      (∀ m1,
        env.io_exchange ((sdk.CHANNEL_APDU ||| l.flags) % 2 ^ 8) (l.tx % 2 ^ 16) s.mem
          = (m1, Except.error sdk.EXCEPTION_IO_RESET) →
        (app_main_try sdk env l s).st =
          { mem := m1,
            trace := s.trace ++ [Event.io_exchange
              ((sdk.CHANNEL_APDU ||| l.flags) % 2 ^ 8) (l.tx % 2 ^ 16)] }) ∧
      (∀ m1 r,
        env.io_exchange ((sdk.CHANNEL_APDU ||| l.flags) % 2 ^ 8) (l.tx % 2 ^ 16) s.mem
          = (m1, Except.ok r) →
        r % 2 ^ 16 ≠ 0 →
        (app_main_try sdk env l s).st =
          { mem := (env.handleApdu 0 0 m1).mem,
            trace := s.trace ++ [Event.io_exchange
              ((sdk.CHANNEL_APDU ||| l.flags) % 2 ^ 8) (l.tx % 2 ^ 16),
              Event.handleApdu] }) ∧
      (∀ k, app_main_loop sdk env (k + 1) l s =
        RunOut.threw sdk.EXCEPTION_IO_RESET (app_main_try sdk env l s).st) ∧
      (∀ fuel outer s0,
        app_main sdk env fuel (coin_main_setup sdk env s0) =
          RunOut.threw sdk.EXCEPTION_IO_RESET (app_main_try sdk env l s).st →
        coin_main sdk env fuel (outer + 1) s0 =
          coin_main sdk env fuel outer (app_main_try sdk env l s).st) ∧
      (coin_main_setup sdk env (app_main_try sdk env l s).st).mem.ctx = env.ctx_initial ∧
      (∀ fuel outer,
        ∃ ext, (coin_main sdk env (fuel + 1) (outer + 1)
            (app_main_try sdk env l s).st).state.trace =
          (app_main_try sdk env l s).st.trace ++ setupEvents sdk
            ++ Event.io_exchange ((sdk.CHANNEL_APDU ||| 0) % 2 ^ 8) 0 :: ext) := by
  have hth : (app_main_try sdk env l s).thrown = some sdk.EXCEPTION_IO_RESET := by
    rcases hraise with ⟨m1, hx⟩ | ⟨m1, r, hx, hr, hh⟩
    · rw [try_of_exchange_fault sdk env l s m1 _ hx]
    · rw [try_of_handler sdk env l s m1 r hx hr]
      exact hh
  have hc := cycle_of_reset sdk env l s hth
  refine ⟨hth, hc, ?_, ?_, ?_, ?_, setup_ctx sdk env _, ?_⟩
  · intro m1 hx
    rw [try_of_exchange_fault sdk env l s m1 _ hx]
  · intro m1 r hx hr
    rw [try_of_handler sdk env l s m1 r hx hr]
    simp
  · intro k
    rw [loop_succ, hc]
  · intro fuel outer s0 ha
    rw [coin_main_succ, ha]
    simp only [if_true]
  · intro fuel outer
    exact coin_main_head sdk env fuel outer _

/-- C6 on both paths, with the reset code 16 of the Nano S SDK: an exchange that raises it
(the trace of `app_main` is the exchange alone), and a handler that raises it after three
reply bytes (the trace is the exchange and the handler). -/
theorem transport_reset_unwinds_witness :
    ((∃ m1, (demoEnv (Except.error 16) 3 none).io_exchange
          ((sdkNano.CHANNEL_APDU ||| 0) % 2 ^ 8) (0 % 2 ^ 16) (demoState 7).mem
          = (m1, Except.error sdkNano.EXCEPTION_IO_RESET)) ∧
        ∃ s1, app_main sdkNano (demoEnv (Except.error 16) 3 none) 1 (demoState 7)
            = RunOut.threw 16 s1 ∧
          s1.trace = [Event.io_exchange 0 0] ∧ s1.mem.G_io_apdu_buffer 0 = 0) ∧
      ((∃ m1 r, (demoEnv (Except.ok 5) 3 (some 16)).io_exchange
          ((sdkNano.CHANNEL_APDU ||| 0) % 2 ^ 8) (0 % 2 ^ 16) (demoState 7).mem
          = (m1, Except.ok r) ∧ r % 2 ^ 16 ≠ 0 ∧
          ((demoEnv (Except.ok 5) 3 (some 16)).handleApdu 0 0 m1).thrown
            = some sdkNano.EXCEPTION_IO_RESET) ∧
        ∃ s1, app_main sdkNano (demoEnv (Except.ok 5) 3 (some 16)) 1 (demoState 7)
            = RunOut.threw 16 s1 ∧
          s1.trace = [Event.io_exchange 0 0, Event.handleApdu] ∧
          s1.mem.G_io_apdu_buffer 3 = 0) :=
  ⟨⟨⟨demoMem 7, rfl⟩, _,
      (transport_reset_unwinds sdkNano (demoEnv (Except.error 16) 3 none)
        { rx := 0, tx := 0, flags := 0 } (demoState 7)
        (Or.inl ⟨demoMem 7, rfl⟩)).2.2.2.2.1 0, rfl, rfl⟩,
    ⟨⟨demoMem 7, 5, rfl, by decide, rfl⟩, _,
      (transport_reset_unwinds sdkNano (demoEnv (Except.ok 5) 3 (some 16))
        { rx := 0, tx := 0, flags := 0 } (demoState 7)
        (Or.inr ⟨demoMem 7, 5, rfl, by decide, rfl⟩)).2.2.2.2.1 0, rfl, rfl⟩⟩

end AppXrp
